import Mathlib

/-!
Verification of the EV1527 RF remote-control decoder (repository
aKaReZa75/AVR_ev1527) against its natural-language specification.

The repository ships `src/Sources/ev1527.h`, which contains the timing
constants, the three validation macros (`EV_pulseIsValid`,
`EV_PrembleCheck`, `EV_bitCheck`), the bit limit `EV_maxIndexData`, and
the decoded-value union `ev1527_T`.  Those are embedded here directly
from the source.  The interrupt-driven state machine that drives them
(the `onPulsePair` decoding loop of `ev1527.c`) is not part of the
sources, so it is modelled from the specification, as noted on each
such definition.

Tick values on the target (AVR ATmega328) come from the 16-bit counter
TCNT1 (`EV_Timer_Value`), and on AVR `int` is 16 bits wide, so the
macro arithmetic over `uint16_t` operands is performed in `unsigned
int` and wraps modulo 2^16.  The exact-arithmetic versions of the
macros (over unbounded naturals, the reading the specification uses)
and the 16-bit wrapped versions (the behaviour of the compiled C on
the target) are both defined below.
-/

namespace EV1527

/-- `#define HPL_min 450` — minimum combined HIGH+LOW pulse duration. -/
def HPL_min : Nat := 450

/-- `#define HPL_Max 8500` — maximum combined HIGH+LOW pulse duration. -/
def HPL_Max : Nat := 8500

/-- `#define EV_maxIndexData 23` — maximum bit index (24 bits total). -/
def EV_maxIndexData : Nat := 23

/-- `EV_pulseIsValid(_tickLow,_tickHigh) =
(((_tickLow + _tickHigh) > HPL_min) && ((_tickLow + _tickHigh) < HPL_Max))`,
read over exact (unbounded) integers. -/
def EV_pulseIsValid (tickLow tickHigh : Nat) : Bool :=
  decide (tickLow + tickHigh > HPL_min) && decide (tickLow + tickHigh < HPL_Max)

/-- `EV_PrembleCheck(_tickLow,_tickHigh) =
((_tickLow >= 25*_tickHigh) && (_tickLow <= 40*_tickHigh))`,
read over exact (unbounded) integers. -/
def EV_PrembleCheck (tickLow tickHigh : Nat) : Bool :=
  decide (tickLow ≥ 25 * tickHigh) && decide (tickLow ≤ 40 * tickHigh)

/-- `EV_bitCheck(_tickLow,_tickHigh) = ((_tickHigh >= 1.5*_tickLow) ? 1 : 0)`.
In the C source `1.5*_tickLow` is computed in `double`; for 16-bit tick
values both `1.5*_tickLow` and the promoted `_tickHigh` are exactly
representable, so the comparison is exact and equals `2*h ≥ 3*l` over
integers. -/
def EV_bitCheck (tickLow tickHigh : Nat) : Nat :=
  if 2 * tickHigh ≥ 3 * tickLow then 1 else 0

/-- `EV_pulseIsValid` as compiled for the AVR target: the operands are
`uint16_t` reads of TCNT1 (`EV_Timer_Value`), `int` is 16 bits, so the
sum is computed in `unsigned int` and wraps modulo 2^16. -/
def EV_pulseIsValid16 (tickLow tickHigh : Nat) : Bool :=
  decide ((tickLow + tickHigh) % 2 ^ 16 > HPL_min) &&
    decide ((tickLow + tickHigh) % 2 ^ 16 < HPL_Max)

/-- `EV_PrembleCheck` as compiled for the AVR target: the products
`25*_tickHigh` and `40*_tickHigh` are computed in 16-bit `unsigned int`
and wrap modulo 2^16. -/
def EV_PrembleCheck16 (tickLow tickHigh : Nat) : Bool :=
  decide (tickLow % 2 ^ 16 ≥ 25 * tickHigh % 2 ^ 16) &&
    decide (tickLow % 2 ^ 16 ≤ 40 * tickHigh % 2 ^ 16)

/-- The packed 32-bit value of the `ev1527_T` union.  The bit-field
struct declares, in order, `Address : 20`, `Keys : 4`, `Detect : 1`,
`Reserve : 7`; avr-gcc allocates bit-fields starting at the
least-significant bit of the storage unit, so `Address` occupies bits
0–19 of `rawValue`, `Keys` bits 20–23, `Detect` bit 24 and `Reserve`
bits 25–31. -/
def ev1527_rawValue (address keys detect reserve : Nat) : Nat :=
  address % 2 ^ 20 + keys % 2 ^ 4 * 2 ^ 20 + detect % 2 * 2 ^ 24 +
    reserve % 2 ^ 7 * 2 ^ 25

/-- Field `Bits.Address` read back from `rawValue` (bits 0–19). -/
def ev1527_Address (raw : Nat) : Nat := raw % 2 ^ 20

/-- Field `Bits.Keys` read back from `rawValue` (bits 20–23). -/
def ev1527_Keys (raw : Nat) : Nat := raw / 2 ^ 20 % 2 ^ 4

/-- Field `Bits.Detect` read back from `rawValue` (bit 24). -/
def ev1527_Detect (raw : Nat) : Nat := raw / 2 ^ 24 % 2

/-- The two logical states of the frame decoder: seeking the preamble,
or collecting bits with the current bit index and accumulator. -/
inductive Machine where
  | seekingPreamble : Machine
  | collectingBits : Nat → Nat → Machine
deriving DecidableEq, Repr

/-- The consumer-visible decoded frame: 20-bit address, 4-bit key and
the detection flag. -/
structure DecodedFrame where
  address : Nat
  key : Nat
  detected : Bool
deriving DecidableEq, Repr

/-- Full decoder state: the internal state machine plus the decoded
frame mailbox. -/
structure Decoder where
  machine : Machine
  frame : DecodedFrame
deriving DecidableEq, Repr

/-- Modelled from the spec: the `onPulsePair(highTicks, lowTicks)`
decoding step.  The interrupt-handler implementation (`ev1527.c`) is
not among the repository sources; only its macros and data type are,
so the control flow is taken from the specification: validate the
total duration with `EV_pulseIsValid` (any failure resets to
`SEEKING_PREAMBLE` and leaves the frame untouched); while seeking,
accept a preamble with `EV_PrembleCheck` (transition to
`COLLECTING_BITS` with bit index 0 and a cleared accumulator); while
collecting, shift in the bit decided by `EV_bitCheck` (first-received
bit ends most significant), and when bit index `EV_maxIndexData` (23)
completes the 24th bit, split the accumulator — top 20 bits to
`address`, bottom 4 bits to `key` — write it with `detected = true`
and return to `SEEKING_PREAMBLE`. -/
def onPulsePair (highTicks lowTicks : Nat) (d : Decoder) : Decoder :=
  if EV_pulseIsValid lowTicks highTicks then
    match d.machine with
    | Machine.seekingPreamble =>
        if EV_PrembleCheck lowTicks highTicks then
          { d with machine := Machine.collectingBits 0 0 }
        else d
    | Machine.collectingBits bitIndex acc =>
        let acc2 := acc * 2 + EV_bitCheck lowTicks highTicks
        if bitIndex = EV_maxIndexData then
          { machine := Machine.seekingPreamble,
            frame := { address := acc2 / 2 ^ 4 % 2 ^ 20,
                       key := acc2 % 2 ^ 4,
                       detected := true } }
        else
          { d with machine := Machine.collectingBits (bitIndex + 1) acc2 }
  else
    { d with machine := Machine.seekingPreamble }

/-- Modelled from the spec: `initialize()` resets the state machine to
`SEEKING_PREAMBLE` and the frame to `detected = false` (performed by
`ev1527_Init`, whose body is not among the sources). -/
def ev1527_Init : Decoder :=
  { machine := Machine.seekingPreamble,
    frame := { address := 0, key := 0, detected := false } }

/-- Modelled from the spec: `readFrame()` returns the decoded frame. -/
def readFrame (d : Decoder) : DecodedFrame := d.frame

/-- Modelled from the spec: `clearDetected()` — the consumer clears the
detection flag (`remote.Bits.Detect = 0` in the usage example). -/
def clearDetected (d : Decoder) : Decoder :=
  { d with frame := { d.frame with detected := false } }

/-- Feed a list of `(highTicks, lowTicks)` pulse pairs through the
decoder in order. -/
def runPulses (ps : List (Nat × Nat)) (d : Decoder) : Decoder :=
  ps.foldl (fun s p => onPulsePair p.1 p.2 s) d

/-- A pulse pair encoding one data bit: logic 1 is long-HIGH/short-LOW
(900, 300); logic 0 is short-HIGH/long-LOW (300, 900). -/
def bitPulse (b : Nat) : Nat × Nat :=
  if b = 1 then (900, 300) else (300, 900)

/-- The 24 bit pulse pairs for a 24-bit value, most significant bit
first (the first bit received ends up most significant in the
accumulator). -/
def encodeBits (value : Nat) : List (Nat × Nat) :=
  (List.range 24).map fun i => bitPulse (value / 2 ^ (23 - i) % 2)

end EV1527

namespace EV1527

/-- The pulse sequence of a complete well-formed frame: one preamble
pair that passes both the duration validation and the preamble ratio
test (highTicks = 320, lowTicks = 8000), followed by the 24 bit pulse
pairs of address 0x12345 and key 0xA (24-bit word 0x12345A). -/
def goodFramePulses : List (Nat × Nat) := (320, 8000) :: encodeBits 0x12345A

/-- The concrete value of `encodeBits 0x12345A`: the 24 bits of
0x12345A most significant first, as (900, 300) / (300, 900) pairs. -/
theorem encodeBits_goodWord :
    encodeBits 0x12345A =
      [(300,900),(300,900),(300,900),(900,300),
       (300,900),(300,900),(900,300),(300,900),
       (300,900),(300,900),(900,300),(900,300),
       (300,900),(900,300),(300,900),(300,900),
       (300,900),(900,300),(300,900),(900,300),
       (900,300),(300,900),(900,300),(300,900)] := by decide

/-- Running `goodFramePulses` from `SEEKING_PREAMBLE` decodes address
0x12345 and key 0xA with `detected = true`, whatever frame was in the
mailbox before. -/
theorem runPulses_goodFrame (f' : DecodedFrame) :
    runPulses goodFramePulses { machine := Machine.seekingPreamble, frame := f' } =
      { machine := Machine.seekingPreamble,
        frame := { address := 0x12345, key := 0xA, detected := true } } := by
  simp +decide [goodFramePulses, encodeBits_goodWord, runPulses, onPulsePair,
    EV_pulseIsValid, EV_PrembleCheck, EV_bitCheck, HPL_min, HPL_Max, EV_maxIndexData]

end EV1527

namespace EV1527

/-- Claim C1: a pulse pair is accepted by the validation step iff its
total duration is strictly between 450 and 8500 ticks (both bounds
exclusive, so totals of exactly 450 and exactly 8500 are rejected),
and whenever the total is at most 450 or at least 8500, `onPulsePair`
leaves the state machine in `SEEKING_PREAMBLE` and the decoded frame
unchanged. -/
theorem pulse_validation_bounds (h l : Nat) :
    (EV_pulseIsValid l h = true ↔ 450 < h + l ∧ h + l < 8500) ∧
    ((h + l ≤ 450 ∨ 8500 ≤ h + l) →
      ∀ d : Decoder, (onPulsePair h l d).machine = Machine.seekingPreamble ∧
        (onPulsePair h l d).frame = d.frame) := by
  constructor
  · simp [EV_pulseIsValid, HPL_min, HPL_Max]; omega
  · intro hb d
    have hv : EV_pulseIsValid l h = false := by
      simp [EV_pulseIsValid, HPL_min, HPL_Max]; omega
    simp [onPulsePair, hv]

/-- Witness for C1 at the boundary total 450 (highTicks = 200,
lowTicks = 250): the pair is rejected and the freshly initialized
decoder is left unchanged. -/
theorem pulse_validation_bounds_witness :
    (onPulsePair 200 250 ev1527_Init).machine = Machine.seekingPreamble ∧
      (onPulsePair 200 250 ev1527_Init).frame = ev1527_Init.frame :=
  (pulse_validation_bounds 200 250).2 (Or.inl (by decide)) ev1527_Init

/-- Claim C2: with a valid total duration, a pair is accepted as a
preamble iff `25·highTicks ≤ lowTicks ≤ 40·highTicks` (both bounds
inclusive); on acceptance the machine moves from `SEEKING_PREAMBLE` to
`COLLECTING_BITS` with bit index 0 and a cleared accumulator, and on
rejection it stays in `SEEKING_PREAMBLE`; the frame is untouched
either way. -/
theorem preamble_acceptance (h l : Nat) (f : DecodedFrame)
    (hmin : 450 < h + l) (hmax : h + l < 8500) :
    (EV_PrembleCheck l h = true ↔ 25 * h ≤ l ∧ l ≤ 40 * h) ∧
    (25 * h ≤ l → l ≤ 40 * h →
      onPulsePair h l { machine := Machine.seekingPreamble, frame := f } =
        { machine := Machine.collectingBits 0 0, frame := f }) ∧
    (¬ (25 * h ≤ l ∧ l ≤ 40 * h) →
      onPulsePair h l { machine := Machine.seekingPreamble, frame := f } =
        { machine := Machine.seekingPreamble, frame := f }) := by
  have hv : EV_pulseIsValid l h = true := by
    simp [EV_pulseIsValid, HPL_min, HPL_Max]; omega
  refine ⟨by simp [EV_PrembleCheck], ?_, ?_⟩
  · intro h1 h2
    have hp : EV_PrembleCheck l h = true := by simp [EV_PrembleCheck]; omega
    simp [onPulsePair, hv, hp]
  · intro hnp
    have hp : EV_PrembleCheck l h = false := by simp [EV_PrembleCheck]; omega
    simp [onPulsePair, hv, hp]

/-- Witness for C2 at the inclusive lower ratio bound: highTicks = 320,
lowTicks = 8000 = 25·320 is accepted and starts bit collection. -/
theorem preamble_acceptance_witness :
    onPulsePair 320 8000 { machine := Machine.seekingPreamble, frame := ev1527_Init.frame } =
      { machine := Machine.collectingBits 0 0, frame := ev1527_Init.frame } :=
  (preamble_acceptance 320 8000 ev1527_Init.frame (by decide) (by decide)).2.1
    (by decide) (by decide)

end EV1527

namespace EV1527

/-- Claim C3: while collecting (bit index below 23) a validated pulse
pair appends the bit decided by `EV_bitCheck`; the decoded bit is 1 iff
`highTicks ≥ 1.5·lowTicks` over the rationals (threshold inclusive)
and 0 otherwise; in particular (h = 900, l = 300) decodes as 1 and
(h = 300, l = 900) decodes as 0. -/
theorem bit_decode (h l bi acc : Nat) (f : DecodedFrame)
    (hmin : 450 < h + l) (hmax : h + l < 8500) (hbi : bi < 23) :
    (EV_bitCheck l h = 1 ↔ (3 / 2 : ℚ) * l ≤ h) ∧
    (EV_bitCheck l h = 0 ↔ (h : ℚ) < 3 / 2 * l) ∧
    onPulsePair h l { machine := Machine.collectingBits bi acc, frame := f } =
      { machine := Machine.collectingBits (bi + 1) (acc * 2 + EV_bitCheck l h),
        frame := f } ∧
    EV_bitCheck 300 900 = 1 ∧ EV_bitCheck 900 300 = 0 := by
  have key : ((3 / 2 : ℚ) * l ≤ h) ↔ 3 * l ≤ 2 * h := by
    constructor
    · intro hq
      have h2 : (3 * l : ℚ) ≤ 2 * h := by linarith
      exact_mod_cast h2
    · intro hn
      have h2 : (3 * l : ℚ) ≤ 2 * h := by exact_mod_cast hn
      linarith
  have hv : EV_pulseIsValid l h = true := by
    simp [EV_pulseIsValid, HPL_min, HPL_Max]; omega
  have hne : ¬ bi = EV_maxIndexData := by simp [EV_maxIndexData]; omega
  refine ⟨?_, ?_, ?_, by decide, by decide⟩
  · rw [key]
    by_cases hc : 3 * l ≤ 2 * h <;> simp [EV_bitCheck, hc]
  · rw [show ((h : ℚ) < 3 / 2 * l) ↔ ¬ ((3 / 2 : ℚ) * l ≤ h) from not_le.symm]
    rw [key]
    by_cases hc : 3 * l ≤ 2 * h <;> simp [EV_bitCheck, hc]
  · simp [onPulsePair, hv, hne]

/-- Witness for C3 at (h = 900, l = 300) from bit index 0: the bit 1 is
shifted in. -/
theorem bit_decode_witness :
    onPulsePair 900 300 { machine := Machine.collectingBits 0 0, frame := ev1527_Init.frame } =
      { machine := Machine.collectingBits 1 (0 * 2 + EV_bitCheck 300 900),
        frame := ev1527_Init.frame } :=
  (bit_decode 900 300 0 0 ev1527_Init.frame (by decide) (by decide) (by decide)).2.2.1

end EV1527

namespace EV1527

/-- Counterexample to claim C4 as stated: the claim puts the 4-bit key
in the LOW 4 bits of `rawValue` and the address in bits 4–23, but the
bit-field struct declares `Address : 20` first, so avr-gcc places the
address in bits 0–19 and the key in bits 20–23.  At address = 0,
key = 15, detect = 1 the claimed layout would give
`rawValue % 16 = 15` and `rawValue / 16 % 2^20 = 0`; the actual packed
value 0x1F00000 satisfies neither. -/
theorem rawValue_layout_counterexample :
    ¬ (ev1527_rawValue 0 15 1 0 % 2 ^ 4 = 15 ∧
       ev1527_rawValue 0 15 1 0 / 2 ^ 4 % 2 ^ 20 = 0) := by decide

/-- Claim C4 (amended): when the bit at index `EV_maxIndexData` = 23
completes the 24-bit frame, the accumulator is split with its top 20
bits becoming the address and its bottom 4 bits the key, both written
together with `detected = true`, and the machine returns to
`SEEKING_PREAMBLE`; in the packed word `ev1527_T.rawValue` the 20-bit
address occupies the LOW 20 bits and the 4-bit key bits 20–23 (the
high nibble of the 24 data bits), with `Detect` at bit 24. -/
theorem frame_completion_split (h l acc : Nat) (f : DecodedFrame)
    (hmin : 450 < h + l) (hmax : h + l < 8500) :
    onPulsePair h l { machine := Machine.collectingBits EV_maxIndexData acc, frame := f } =
      { machine := Machine.seekingPreamble,
        frame := { address := (acc * 2 + EV_bitCheck l h) / 2 ^ 4 % 2 ^ 20,
                   key := (acc * 2 + EV_bitCheck l h) % 2 ^ 4,
                   detected := true } } ∧
    ∀ a k : Nat, a < 2 ^ 20 → k < 2 ^ 4 →
      ev1527_Address (ev1527_rawValue a k 1 0) = a ∧
      ev1527_Keys (ev1527_rawValue a k 1 0) = k ∧
      ev1527_Detect (ev1527_rawValue a k 1 0) = 1 := by
  have hv : EV_pulseIsValid l h = true := by
    simp [EV_pulseIsValid, HPL_min, HPL_Max]; omega
  constructor
  · simp [onPulsePair, hv]
  · intro a k ha hk
    simp only [ev1527_rawValue, ev1527_Address, ev1527_Keys, ev1527_Detect]
    omega

/-- Witness for C4 (amended) at h = 900, l = 300, accumulator
0x91A2D = 0x12345A >> 1 (so the completed word is 0x12345A), and at
the concrete fields a = 5, k = 3. -/
theorem frame_completion_split_witness :
    onPulsePair 900 300
        { machine := Machine.collectingBits EV_maxIndexData 0x91A2D,
          frame := ev1527_Init.frame } =
      { machine := Machine.seekingPreamble,
        frame := { address := (0x91A2D * 2 + EV_bitCheck 300 900) / 2 ^ 4 % 2 ^ 20,
                   key := (0x91A2D * 2 + EV_bitCheck 300 900) % 2 ^ 4,
                   detected := true } } ∧
    ev1527_Address (ev1527_rawValue 5 3 1 0) = 5 ∧
    ev1527_Keys (ev1527_rawValue 5 3 1 0) = 3 ∧
    ev1527_Detect (ev1527_rawValue 5 3 1 0) = 1 :=
  ⟨(frame_completion_split 900 300 0x91A2D ev1527_Init.frame (by decide) (by decide)).1,
   (frame_completion_split 900 300 0x91A2D ev1527_Init.frame (by decide) (by decide)).2
     5 3 (by decide) (by decide)⟩

/-- Counterexample to claim C5 as stated: the spec's example preamble
pair (highTicks = 320, lowTicks = 10000) has total duration
10320 ≥ 8500, so the validation step the spec itself applies to every
pulse pair rejects it; feeding it followed by the 24 bit pairs of
address 0x12345 and key 0xA leaves `detected = false` instead of the
claimed `detected = true`. -/
theorem end_to_end_spec_preamble_fails :
    (readFrame (runPulses ((320, 10000) :: encodeBits 0x12345A) ev1527_Init)).detected
      = false := by decide

/-- Claim C5 (amended): feeding one preamble pulse pair that passes
both the duration validation and the preamble ratio test — here
highTicks = 320, lowTicks = 8000 — followed by 24 valid bit pulse
pairs encoding address 0x12345 and key 0xA sets `detected = true` and
makes `readFrame()` return address 0x12345 and key 0xA. -/
theorem end_to_end_decode :
    (readFrame (runPulses goodFramePulses ev1527_Init)).detected = true ∧
    (readFrame (runPulses goodFramePulses ev1527_Init)).address = 0x12345 ∧
    (readFrame (runPulses goodFramePulses ev1527_Init)).key = 0xA := by decide

end EV1527

namespace EV1527

/-- Claim C6: a pulse pair failing duration validation while
collecting aborts the partial frame atomically — the machine returns
to `SEEKING_PREAMBLE` and the frame (including `detected`) is
untouched, for any bit index and accumulator — and from the resulting
state a valid preamble followed by 24 valid bits decodes normally,
whatever frame the aborted attempt left in the mailbox. -/
theorem abort_partial_frame (h l bi acc : Nat) (f : DecodedFrame)
    (hbad : h + l ≤ 450 ∨ 8500 ≤ h + l) :
    onPulsePair h l { machine := Machine.collectingBits bi acc, frame := f } =
      { machine := Machine.seekingPreamble, frame := f } ∧
    ∀ f' : DecodedFrame,
      readFrame (runPulses goodFramePulses
          { machine := Machine.seekingPreamble, frame := f' }) =
        { address := 0x12345, key := 0xA, detected := true } := by
  have hv : EV_pulseIsValid l h = false := by
    simp [EV_pulseIsValid, HPL_min, HPL_Max]; omega
  refine ⟨by simp [onPulsePair, hv], ?_⟩
  intro f'
  rw [readFrame, runPulses_goodFrame f']

/-- Witness for C6: an out-of-range pulse (h = 0, l = 9000) aborts a
partial frame at bit index 5, and the good frame sequence then decodes
from the aborted state. -/
theorem abort_partial_frame_witness :
    onPulsePair 0 9000 { machine := Machine.collectingBits 5 3, frame := ev1527_Init.frame } =
      { machine := Machine.seekingPreamble, frame := ev1527_Init.frame } ∧
    readFrame (runPulses goodFramePulses
        { machine := Machine.seekingPreamble, frame := ev1527_Init.frame }) =
      { address := 0x12345, key := 0xA, detected := true } :=
  ⟨(abort_partial_frame 0 9000 5 3 ev1527_Init.frame (Or.inr (by decide))).1,
   (abort_partial_frame 0 9000 5 3 ev1527_Init.frame (Or.inr (by decide))).2
     ev1527_Init.frame⟩

/-- Claim C7: in every step the frame is either left exactly unchanged
or written as a complete range-checked frame with `detected = true`,
the latter only when a valid pulse completes bit index 23; the decoder
never clears `detected` (clearing is the consumer's `clearDetected`,
and reinitialization `ev1527_Init` starts with `detected = false`). -/
theorem detect_flag_invariant (h l : Nat) (d : Decoder) :
    ((onPulsePair h l d).frame = d.frame ∨
      ((onPulsePair h l d).frame.detected = true ∧
       (onPulsePair h l d).frame.address < 2 ^ 20 ∧
       (onPulsePair h l d).frame.key < 2 ^ 4 ∧
       EV_pulseIsValid l h = true ∧
       ∃ acc, d.machine = Machine.collectingBits EV_maxIndexData acc)) ∧
    (d.frame.detected = true → (onPulsePair h l d).frame.detected = true) ∧
    (readFrame ev1527_Init).detected = false ∧
    readFrame (clearDetected d) = { d.frame with detected := false } := by
  obtain ⟨m, f⟩ := d
  refine ⟨?_, ?_, by simp [readFrame, ev1527_Init], by simp [readFrame, clearDetected]⟩
  · by_cases hv : EV_pulseIsValid l h
    · cases m with
      | seekingPreamble =>
          by_cases hp : EV_PrembleCheck l h <;> simp [onPulsePair, hv, hp]
      | collectingBits bi acc =>
          by_cases hb : bi = EV_maxIndexData
          · subst hb
            right
            refine ⟨?_, ?_, ?_, hv, acc, rfl⟩ <;> simp [onPulsePair, hv] <;> omega
          · left; simp [onPulsePair, hv, hb]
    · left; simp [onPulsePair, hv]
  · intro hd
    have hd' : f.detected = true := hd
    by_cases hv : EV_pulseIsValid l h
    · cases m with
      | seekingPreamble =>
          by_cases hp : EV_PrembleCheck l h <;> simp [onPulsePair, hv, hp, hd']
      | collectingBits bi acc =>
          by_cases hb : bi = EV_maxIndexData <;> simp [onPulsePair, hv, hb, hd']
    · simp [onPulsePair, hv, hd']

/-- Witness for C7: a pulse pair that decodes nothing preserves an
already-set detection flag. -/
theorem detect_flag_invariant_witness :
    (onPulsePair 300 900
        { machine := Machine.seekingPreamble,
          frame := { address := 1, key := 2, detected := true } }).frame.detected = true :=
  (detect_flag_invariant 300 900
      { machine := Machine.seekingPreamble,
        frame := { address := 1, key := 2, detected := true } }).2.1 rfl

end EV1527

namespace EV1527

/-- Claim C8: over exact (unbounded) integers, any pulse pair passing
both `EV_pulseIsValid` and `EV_PrembleCheck` has `26·highTicks < 8500`,
hence `highTicks ≤ 326` and `lowTicks < 8500`; in particular no pair
whose LOW duration is 8500 ticks or more (such as the typical
~10000-tick EV1527 preamble LOW) can pass both checks. -/
theorem valid_preamble_high_bound (h l : Nat)
    (hv : EV_pulseIsValid l h = true) (hp : EV_PrembleCheck l h = true) :
    26 * h < 8500 ∧ h ≤ 326 ∧ l < 8500 := by
  simp [EV_pulseIsValid, EV_PrembleCheck, HPL_min, HPL_Max] at hv hp
  omega

/-- Witness for C8 at highTicks = 320, lowTicks = 8000, a pair passing
both checks. -/
theorem valid_preamble_high_bound_witness :
    26 * 320 < 8500 ∧ 320 ≤ 326 ∧ 8000 < 8500 :=
  valid_preamble_high_bound 320 8000 (by decide) (by decide)

/-- Claim C9: with the 16-bit wrap-around arithmetic of the AVR target
(`TCNT1` is 16 bits and so is `unsigned int`), `EV_pulseIsValid`
accepts the pair highTicks = 65000, lowTicks = 1000 whose true
combined duration 66000 exceeds the 8500-tick maximum — the sum wraps
to 464, while exact arithmetic would reject the pair. -/
theorem wrap16_accepts_overlong_pulse :
    EV_pulseIsValid16 1000 65000 = true ∧
    8500 ≤ 65000 + 1000 ∧
    2 ^ 16 ≤ 65000 + 1000 ∧
    (1000 + 65000) % 2 ^ 16 = 464 ∧
    EV_pulseIsValid 1000 65000 = false := by decide

/-- Claim C10: with 16-bit wrap-around arithmetic the products
`25·highTicks` and `40·highTicks` overflow from highTicks = 2622 and
highTicks = 1639 onwards (the largest non-overflowing highTicks are
2621 and 1638), so the pair highTicks = 2622, lowTicks = 3000 — whose
true LOW/HIGH ratio is below 25 and which passes the duration check —
is accepted as a preamble, while exact arithmetic would reject it. -/
theorem wrap16_accepts_false_preamble :
    EV_PrembleCheck16 3000 2622 = true ∧
    EV_pulseIsValid16 3000 2622 = true ∧
    2 ^ 16 ≤ 25 * 2622 ∧ 25 * 2621 < 2 ^ 16 ∧
    2 ^ 16 ≤ 40 * 1639 ∧ 40 * 1638 < 2 ^ 16 ∧
    3000 < 25 * 2622 ∧
    EV_PrembleCheck 3000 2622 = false := by decide

end EV1527
